import Mathlib

/-
Verification of the CoinConductor budgeting backend: a shallow embedding of
the balance calculator, the AI categorization adapter and orchestrator, the
bank-sync reconciliation logic and the webhook receiver, with theorems about
the behaviours the specification describes.

Numeric amounts (Float in the source) are modelled as rationals; dates and
timestamps as natural numbers.  Database tables are lists of rows; a query
with filters is a list filter; `first()` is `List.find?`.
-/

namespace CoinConductor

/-- A transaction row (app/models/transactions.py, class Transaction). -/
structure Transaction where
  id : Nat
  amount : ℚ
  description : String
  date : Nat
  category_id : Option Nat
  budget_period_id : Option Nat
  user_id : Nat
  source : String
  notes : Option String
  external_id : Option String
deriving Repr, DecidableEq

/-- A category row (app/models/categories.py, class Category). -/
structure Category where
  id : Nat
  name : String
  budget_amount : ℚ
  user_id : Nat
  month : String
deriving Repr, DecidableEq

/-- A budget period row (app/models/budget.py, class BudgetPeriod). -/
structure BudgetPeriod where
  id : Nat
  name : String
  start_date : Nat
  end_date : Nat
  total_income : ℚ
  user_id : Nat
deriving Repr, DecidableEq

/-- An envelope allocation row (app/models/budget.py, class EnvelopeAllocation). -/
structure EnvelopeAllocation where
  id : Nat
  allocated_amount : ℚ
  category_id : Nat
  budget_period_id : Nat
deriving Repr, DecidableEq

/-- A bank account row (app/models/transactions.py, class BankAccount). -/
structure BankAccount where
  id : Nat
  name : String
  account_type : String
  provider : String
  user_id : Nat
  secret_id : Option String
  secret_key : Option String
  last_synced : Option Nat
deriving Repr, DecidableEq

/-- Errors surfaced by the routes: HTTPException status codes 404, 400, 401
and 500 (app/routes, raise HTTPException). -/
inductive ApiError where
  | notFound : ApiError
  | badRequest : String → ApiError
  | unauthorized : ApiError
  | serverError : String → ApiError
deriving Repr, DecidableEq

/-- Sum of the amount column over a list of transactions.  This is
`db.query(func.sum(Transaction.amount)).filter(...).scalar() or 0.0`: the SQL
sum of the filtered rows, with NULL (empty set) coerced to 0.0. -/
def sumAmounts (ts : List Transaction) : ℚ :=
  (ts.map (fun t => t.amount)).sum

/-- The response shape of GET /categories/\x7bid\x7d/
(app/schemas/categories.py, CategoryWithBalance). -/
structure CategoryWithBalance where
  id : Nat
  name : String
  budget_amount : ℚ
  month : String
  user_id : Nat
  spent : ℚ
  remaining : ℚ
deriving Repr, DecidableEq

/-- read_category (app/routes/categories.py, lines 76-112): find the category
by id scoped to the caller, 404 when absent; spent is the sum of the caller's
transactions in that category; remaining is budget_amount minus spent. -/
def read_category (cats : List Category) (txns : List Transaction)
    (uid cid : Nat) : Except ApiError CategoryWithBalance :=
  match cats.find? (fun c => decide (c.id = cid ∧ c.user_id = uid)) with
  | none => .error .notFound
  | some c =>
      let spent := sumAmounts (txns.filter
        (fun t => decide (t.category_id = some c.id ∧ t.user_id = uid)))
      .ok { id := c.id, name := c.name, budget_amount := c.budget_amount,
            month := c.month, user_id := c.user_id, spent := spent,
            remaining := c.budget_amount - spent }

/-- Spent amount for one allocation inside a period: the SQL sum over the
caller's transactions whose category_id and budget_period_id match
(app/routes/budget.py, lines 379-383), with NULL coerced to 0.0. -/
def periodSpent (txns : List Transaction) (uid pid cid : Nat) : ℚ :=
  sumAmounts (txns.filter (fun t =>
    decide (t.category_id = some cid ∧ t.budget_period_id = some pid ∧ t.user_id = uid)))

/-- One allocation enriched with category name, spent and remaining, as built
inside the loop of get_budget_period_with_allocations (app/routes/budget.py,
lines 373-399). -/
structure AllocationDetail where
  id : Nat
  allocated_amount : ℚ
  category_id : Nat
  budget_period_id : Nat
  category_name : String
  spent : ℚ
  remaining : ℚ
deriving Repr, DecidableEq

/-- The response of GET /budget/periods/\x7bid\x7d/ (BudgetPeriodWithAllocations):
the period fields spread together with the allocation details and the four
aggregate totals (app/routes/budget.py, lines 404-412). -/
structure PeriodSummary where
  id : Nat
  name : String
  start_date : Nat
  end_date : Nat
  total_income : ℚ
  user_id : Nat
  allocations : List AllocationDetail
  total_allocated : ℚ
  total_spent : ℚ
  total_remaining : ℚ
  unallocated : ℚ
deriving Repr, DecidableEq

/-- The accumulation loop of get_budget_period_with_allocations
(app/routes/budget.py, lines 369-399): starting from total_allocated = 0.0,
total_spent = 0.0 and an empty detail list, each allocation looks up its
category name ("Unknown" when the category row is missing), computes spent
and remaining, and adds to the running totals. -/
def allocationLoop (cats : List Category) (txns : List Transaction)
    (uid pid : Nat) (allocs : List EnvelopeAllocation)
    (acc : ℚ × ℚ × List AllocationDetail) : ℚ × ℚ × List AllocationDetail :=
  match allocs with
  | [] => acc
  | a :: rest =>
      let category_name :=
        match cats.find? (fun c => decide (c.id = a.category_id)) with
        | some c => c.name
        | none => "Unknown"
      let spent := periodSpent txns uid pid a.category_id
      let detail : AllocationDetail :=
        { id := a.id, allocated_amount := a.allocated_amount,
          category_id := a.category_id, budget_period_id := a.budget_period_id,
          category_name := category_name, spent := spent,
          remaining := a.allocated_amount - spent }
      allocationLoop cats txns uid pid rest
        (acc.1 + a.allocated_amount, acc.2.1 + spent, acc.2.2 ++ [detail])

/-- get_budget_period_with_allocations (app/routes/budget.py, lines 346-414):
find the period scoped to the caller (404 when absent), take the allocations
of that period, run the accumulation loop, and assemble the summary with
total_remaining = total_allocated - total_spent and
unallocated = total_income - total_allocated. -/
def get_budget_period_with_allocations (periods : List BudgetPeriod)
    (allocs : List EnvelopeAllocation) (cats : List Category)
    (txns : List Transaction) (uid pid : Nat) : Except ApiError PeriodSummary :=
  match periods.find? (fun p => decide (p.id = pid ∧ p.user_id = uid)) with
  | none => .error .notFound
  | some period =>
      let periodAllocs := allocs.filter (fun a => decide (a.budget_period_id = pid))
      let res := allocationLoop cats txns uid pid periodAllocs (0, 0, [])
      let total_allocated := res.1
      let total_spent := res.2.1
      .ok { id := period.id, name := period.name,
            start_date := period.start_date, end_date := period.end_date,
            total_income := period.total_income, user_id := period.user_id,
            allocations := res.2.2,
            total_allocated := total_allocated, total_spent := total_spent,
            total_remaining := total_allocated - total_spent,
            unallocated := period.total_income - total_allocated }

/-- A candidate category handed to the AI adapter: the
\x7b"id": category.id, "name": category.name\x7d dictionaries built in
app/routes/ai.py, lines 48-51 and 110-113. -/
structure CategoryChoice where
  id : Nat
  name : String
deriving Repr, DecidableEq

/-- Python str.strip on a character list: drop whitespace at both ends. -/
def trimChars (l : List Char) : List Char :=
  ((l.dropWhile Char.isWhitespace).reverse.dropWhile Char.isWhitespace).reverse

/-- Python str.lower, working on the character list of the string. -/
def lowerStr (s : String) : String :=
  String.mk (s.data.map Char.toLower)

/-- Python int() on a string already known to hold only digits. -/
def digitsToNat (l : List Char) : Nat :=
  l.foldl (fun acc c => 10 * acc + (c.toNat - Char.toNat '0')) 0

/-- Response cleaning in AICategorizer.categorize_transaction
(app/utils/ai_categorization.py, lines 160-163): strip, lowercase, then keep
only digits and the letter n. -/
def cleanResponse (response : String) : List Char :=
  ((trimChars response.data).map Char.toLower).filter
    (fun c => c.isDigit || c == 'n')

/-- Parsing of the cleaned provider answer (app/utils/ai_categorization.py,
lines 165-170 and 196-198): an empty string or one starting with n means no
suggestion; otherwise int(...) is attempted, and a ValueError (a non-digit
left in the string) is caught and also yields no suggestion. -/
def parseCategoryId (response : String) : Option Nat :=
  match cleanResponse response with
  | [] => none
  | c :: rest =>
      if c = 'n' then none
      else if (c :: rest).all Char.isDigit then some (digitsToNat (c :: rest))
      else none

/-- The pure result of AICategorizer.categorize_transaction
(app/utils/ai_categorization.py, lines 158-198) given the provider's textual
answer: parse the answer, then drop any id that is not in the candidate
list. -/
def categorize_transaction (available : List CategoryChoice)
    (response : String) : Option Nat :=
  match parseCategoryId response with
  | none => none
  | some cid =>
      if available.any (fun c => decide (c.id = cid)) then some cid else none

/-- The persistent ledger: one list per table, plus fresh-id counters that
stand for the autoincrement primary keys. -/
structure LedgerState where
  categories : List Category
  transactions : List Transaction
  nextTransactionId : Nat
  nextCategoryId : Nat
deriving Repr, DecidableEq

/-- Database update performed by AICategorizer.categorize_transaction when a
db session and transaction_id are supplied (app/utils/ai_categorization.py,
lines 178-192): the transaction row with that id gets the accepted category
and is committed immediately.  Runs only after the candidate-membership
check, so it pairs with `categorize_transaction`. -/
def categorizeAndPersist (s : LedgerState) (available : List CategoryChoice)
    (response : String) (tid : Nat) : LedgerState × Option Nat :=
  match categorize_transaction available response with
  | none => (s, none)
  | some cid =>
      ({ s with transactions := s.transactions.map (fun t =>
          if t.id = tid then { t with category_id := some cid } else t) },
       some cid)

/-- One line of the report returned by POST /ai/bulk-categorize/
(app/routes/ai.py, lines 137-143). -/
structure BulkResult where
  transaction_id : Nat
  description : String
  amount : ℚ
  category_id : Option Nat
  category_name : Option String
deriving Repr, DecidableEq

/-- The selection filter of bulk categorization (app/routes/ai.py, lines
92-95): the caller's transactions whose category_id is NULL or 0. -/
def uncategorizedFor (s : LedgerState) (uid : Nat) : List Transaction :=
  s.transactions.filter (fun t =>
    decide (t.user_id = uid ∧ (t.category_id = none ∨ t.category_id = some 0)))

/-- The candidate list for a user (app/routes/ai.py, lines 101-113). -/
def availableFor (s : LedgerState) (uid : Nat) : List CategoryChoice :=
  (s.categories.filter (fun c => decide (c.user_id = uid))).map
    (fun c => { id := c.id, name := c.name })

/-- The per-transaction body of the bulk loop (app/routes/ai.py, lines
120-143): ask the adapter (its answer modelled by the oracle `ai`, a function
of the transaction's description and amount), persist an accepted suggestion,
look up the category name, and append the report line. -/
def bulkStep (ai : String → ℚ → String) (available : List CategoryChoice)
    (acc : List BulkResult × LedgerState) (t : Transaction) :
    List BulkResult × LedgerState :=
  let step := categorizeAndPersist acc.2 available (ai t.description t.amount) t.id
  let category_name := step.2.bind (fun cid =>
    (available.find? (fun c => decide (c.id = cid))).map (fun c => c.name))
  (acc.1 ++ [{ transaction_id := t.id, description := t.description,
               amount := t.amount, category_id := step.2,
               category_name := category_name }],
   step.1)

/-- bulk_categorize_transactions (app/routes/ai.py, lines 83-159): select the
caller's uncategorized transactions, returning an empty report at once when
there are none; with a non-empty selection, a user without categories gets a
400; otherwise each selected transaction goes through the adapter and
accepted suggestions are persisted. -/
def bulk_categorize_transactions (s : LedgerState) (uid : Nat)
    (ai : String → ℚ → String) :
    Except ApiError (List BulkResult × LedgerState) :=
  let uncategorized := uncategorizedFor s uid
  if uncategorized.isEmpty then .ok ([], s)
  else if (s.categories.filter (fun c => decide (c.user_id = uid))).isEmpty then
    .error (.badRequest ("No categories found. Please create categories first."))
  else
    .ok (uncategorized.foldl (bulkStep ai (availableFor s uid)) ([], s))

/-- One record of the standardized fetch result of fetch_transactions
(app/utils/gocardless.py, lines 83-93). -/
structure SyncRecord where
  amount : ℚ
  description : String
  date : Nat
  external_id : String
  status : String
  currency : String
deriving Repr, DecidableEq

/-- Find-or-create of the owner-scoped Uncategorized category
(app/routes/transactions.py, lines 199-213).  When the category exists it is
returned and the ledger is untouched.  When it is missing, the source
constructs Category(name=..., user_id=..., color=...), but the Category model
(app/models/categories.py) has no color attribute, so the declarative
constructor raises TypeError before anything is inserted; the create branch
therefore fails, and the exception propagates to the route's handler. -/
def findOrCreateUncategorized (s : LedgerState) (uid : Nat) :
    Except String (Category × LedgerState) :=
  match s.categories.find? (fun c =>
      decide (c.name = "Uncategorized" ∧ c.user_id = uid)) with
  | some c => .ok (c, s)
  | none => .error ("color is an invalid keyword argument for Category")

/-- One iteration of the reconciliation loop of sync_bank_account
(app/routes/transactions.py, lines 217-238): skip the record when a
transaction with its external_id already exists for the owner, otherwise
insert a new transaction tagged source gocardless and defaulted to the
Uncategorized category. -/
def syncStep (uid uncatId : Nat) (st : LedgerState) (r : SyncRecord) :
    LedgerState :=
  if st.transactions.any (fun t =>
      decide (t.external_id = some r.external_id ∧ t.user_id = uid)) then
    st
  else
    { st with
      transactions := st.transactions ++
        [{ id := st.nextTransactionId, amount := r.amount,
           description := r.description, date := r.date,
           category_id := some uncatId, budget_period_id := none,
           user_id := uid, source := "gocardless",
           notes := some ("Status: " ++ r.status ++ ", Currency: " ++ r.currency),
           external_id := some r.external_id }],
      nextTransactionId := st.nextTransactionId + 1 }

/-- The reconciliation loop of sync_bank_account (app/routes/transactions.py,
lines 215-238), iterating syncStep over the fetched records. -/
def syncLoop (uid uncatId : Nat) (records : List SyncRecord)
    (s : LedgerState) : LedgerState :=
  match records with
  | [] => s
  | r :: rest => syncLoop uid uncatId rest (syncStep uid uncatId s r)

/-- sync_bank_account (app/routes/transactions.py, lines 144-254) for an
already-located account of the caller.  Client initialization and the fetch
are the only outbound effects; their combined outcome is passed in as
`fetchResult`.  A non-GoCardless provider or missing credentials give a 400.
Every exception inside the try block — a failed client initialization or
fetch, and equally the TypeError raised when the Uncategorized category has
to be created — is surfaced as a 500, committing nothing, so the stored
account keeps its previous last_synced; on success the loop runs and
last_synced is set to the call time `now`. -/
def sync_bank_account (s : LedgerState) (acct : BankAccount) (uid now : Nat)
    (fetchResult : Except String (List SyncRecord)) :
    Except ApiError (LedgerState × BankAccount) :=
  if lowerStr acct.provider ≠ "gocardless" then
    .error (.badRequest ("This endpoint only supports GoCardless accounts"))
  else if acct.secret_id.getD ("") = ("") then
    .error (.badRequest ("GoCardless API credentials are missing"))
  else
    match fetchResult with
    | .error e => .error (.serverError ("Failed to sync with GoCardless: " ++ e))
    | .ok records =>
        match findOrCreateUncategorized s uid with
        | .error e => .error (.serverError ("Failed to sync with GoCardless: " ++ e))
        | .ok p =>
            let final := syncLoop uid p.1.id records p.2
            .ok (final, { acct with last_synced := some now })

/-- read_transaction (app/routes/transactions.py, lines 379-396): the lookup
is scoped by both transaction id and the caller's user id; 404 otherwise. -/
def read_transaction (s : LedgerState) (uid tid : Nat) :
    Except ApiError Transaction :=
  match s.transactions.find? (fun t =>
      decide (t.id = tid ∧ t.user_id = uid)) with
  | some t => .ok t
  | none => .error .notFound

/-- verify_webhook_signature (app/utils/gocardless.py, lines 106-130): the
body of the try block is a placeholder that returns True for every request
body, signature header and secret. -/
def verify_webhook_signature (requestBody : List Nat)
    (signatureHeader : String) (webhookSecret : String) : Bool :=
  true

/-- The signature gate of the webhook endpoint (app/routes/transactions.py,
lines 269-285): verify the signature with the hard-coded secret and answer
401 when it is invalid. -/
def webhookSignatureGate (requestBody : List Nat) (signatureHeader : String) :
    Except ApiError Unit :=
  if verify_webhook_signature requestBody signatureHeader ("your_webhook_secret") then
    .ok ()
  else
    .error .unauthorized

/-- The transaction lookup of the webhook payment-event handler
(app/routes/transactions.py, lines 300-302): the first transaction matching
the payment id by external_id, with no user filter. -/
def webhookFindTransaction (s : LedgerState) (paymentId : String) :
    Option Transaction :=
  s.transactions.find? (fun t => decide (t.external_id = some paymentId))

/-- The mutation of the webhook payment-event handler
(app/routes/transactions.py, lines 304-313): when a transaction matches the
payment id, a status note is appended to it; unmatched events are ignored. -/
def webhookApplyEvent (s : LedgerState) (paymentId note : String) :
    LedgerState :=
  match webhookFindTransaction s paymentId with
  | none => s
  | some tr =>
      { s with transactions := s.transactions.map (fun t =>
          if t.id = tr.id then
            { t with notes := some ((t.notes.getD ("")) ++ note) }
          else t) }

/- Helper lemmas -/

/-- The first accumulator of the allocation loop collects the sum of the
allocated amounts. -/
theorem allocationLoop_fst (cats : List Category) (txns : List Transaction)
    (uid pid : Nat) (allocs : List EnvelopeAllocation) :
    ∀ acc : ℚ × ℚ × List AllocationDetail,
      (allocationLoop cats txns uid pid allocs acc).1 =
        acc.1 + (allocs.map (fun a => a.allocated_amount)).sum := by
  induction allocs with
  | nil => intro acc; simp [allocationLoop]
  | cons a rest ih => intro acc; simp [allocationLoop, ih, add_assoc]

/-- The second accumulator of the allocation loop collects the sum of the
per-category spent amounts. -/
theorem allocationLoop_snd (cats : List Category) (txns : List Transaction)
    (uid pid : Nat) (allocs : List EnvelopeAllocation) :
    ∀ acc : ℚ × ℚ × List AllocationDetail,
      (allocationLoop cats txns uid pid allocs acc).2.1 =
        acc.2.1 + (allocs.map (fun a => periodSpent txns uid pid a.category_id)).sum := by
  induction allocs with
  | nil => intro acc; simp [allocationLoop]
  | cons a rest ih => intro acc; simp [allocationLoop, ih, add_assoc]

/- Claim C1 -/

/-- Claim C1: for every budget period P with its allocations A and the
period's transactions grouped by category, the summary returned by reading a
budget period with allocations satisfies total_allocated = Σ allocated_amount
over A, total_spent = Σ per-category spent over A, total_remaining =
total_allocated - total_spent, and unallocated = P.total_income -
total_allocated. -/
theorem period_summary_totals (periods : List BudgetPeriod)
    (allocs : List EnvelopeAllocation) (cats : List Category)
    (txns : List Transaction) (uid pid : Nat) (s : PeriodSummary)
    (h : get_budget_period_with_allocations periods allocs cats txns uid pid = .ok s) :
    s.total_allocated =
      ((allocs.filter (fun a => decide (a.budget_period_id = pid))).map
        (fun a => a.allocated_amount)).sum ∧
    s.total_spent =
      ((allocs.filter (fun a => decide (a.budget_period_id = pid))).map
        (fun a => periodSpent txns uid pid a.category_id)).sum ∧
    s.total_remaining = s.total_allocated - s.total_spent ∧
    s.unallocated = s.total_income - s.total_allocated := by
  unfold get_budget_period_with_allocations at h
  cases hfind : periods.find? (fun p => decide (p.id = pid ∧ p.user_id = uid)) with
  | none => rw [hfind] at h; cases h
  | some period =>
      rw [hfind] at h
      simp only [Except.ok.injEq] at h
      subst h
      refine ⟨?_, ?_, rfl, rfl⟩
      · simpa using allocationLoop_fst cats txns uid pid
          (allocs.filter (fun a => decide (a.budget_period_id = pid))) (0, 0, [])
      · simpa using allocationLoop_snd cats txns uid pid
          (allocs.filter (fun a => decide (a.budget_period_id = pid))) (0, 0, [])

/-- Concrete instance for the period summary: one period with income 10, one
allocation of 4 on category 1, one transaction of amount 3 in that category
and period. -/
def c1period : BudgetPeriod :=
  { id := 1, name := "March 2025", start_date := 0, end_date := 30,
    total_income := 10, user_id := 1 }

def c1alloc : EnvelopeAllocation :=
  { id := 1, allocated_amount := 4, category_id := 1, budget_period_id := 1 }

def c1cat : Category :=
  { id := 1, name := "Food", budget_amount := 4, user_id := 1, month := "2025-03" }

def c1txn : Transaction :=
  { id := 1, amount := 3, description := "groceries", date := 3,
    category_id := some 1, budget_period_id := some 1, user_id := 1,
    source := "manual", notes := none, external_id := none }

def c1summary : PeriodSummary :=
  { id := 1, name := "March 2025", start_date := 0, end_date := 30,
    total_income := 10, user_id := 1,
    allocations := [{ id := 1, allocated_amount := 4, category_id := 1,
                      budget_period_id := 1, category_name := "Food",
                      spent := 3, remaining := 1 }],
    total_allocated := 4, total_spent := 3, total_remaining := 1,
    unallocated := 6 }

/-- Witness for claim C1 at the concrete instance. -/
theorem period_summary_totals_witness :
    (get_budget_period_with_allocations [c1period] [c1alloc] [c1cat] [c1txn] 1 1
      = .ok c1summary) ∧
    (c1summary.total_allocated =
      (([c1alloc].filter (fun a => decide (a.budget_period_id = 1))).map
        (fun a => a.allocated_amount)).sum ∧
     c1summary.total_spent =
      (([c1alloc].filter (fun a => decide (a.budget_period_id = 1))).map
        (fun a => periodSpent [c1txn] 1 1 a.category_id)).sum ∧
     c1summary.total_remaining = c1summary.total_allocated - c1summary.total_spent ∧
     c1summary.unallocated = c1summary.total_income - c1summary.total_allocated) := by
  have hok : get_budget_period_with_allocations [c1period] [c1alloc] [c1cat] [c1txn] 1 1
      = .ok c1summary := by
    norm_num [get_budget_period_with_allocations, allocationLoop, periodSpent,
      sumAmounts, c1period, c1alloc, c1cat, c1txn, c1summary]
  exact ⟨hok, period_summary_totals [c1period] [c1alloc] [c1cat] [c1txn] 1 1 c1summary hok⟩

/- Claim C2 -/

/-- Claim C2: for every category C and set of transactions T belonging to the
caller, the category balance returned when reading a category has spent equal
to the sum of t.amount over the t in T with t.category_id = C.id (0 when no
transaction matches, never null: the sum is total), and remaining equal to
C.budget_amount minus that spent. -/
theorem category_balance_spec (cats : List Category) (txns : List Transaction)
    (uid cid : Nat) (r : CategoryWithBalance)
    (hok : read_category cats txns uid cid = .ok r)
    (howner : ∀ t ∈ txns, t.user_id = uid) :
    r.spent = ((txns.filter (fun t => decide (t.category_id = some r.id))).map
      (fun t => t.amount)).sum ∧
    r.remaining = r.budget_amount - r.spent ∧
    (txns.filter (fun t => decide (t.category_id = some r.id)) = [] → r.spent = 0) := by
  unfold read_category at hok
  cases hfind : cats.find? (fun c => decide (c.id = cid ∧ c.user_id = uid)) with
  | none => rw [hfind] at hok; cases hok
  | some c =>
      rw [hfind] at hok
      simp only [Except.ok.injEq] at hok
      subst hok
      have hfilter : txns.filter
            (fun t => decide (t.category_id = some c.id ∧ t.user_id = uid)) =
          txns.filter (fun t => decide (t.category_id = some c.id)) := by
        apply List.filter_congr
        intro t ht
        simp [howner t ht]
      refine ⟨?_, rfl, ?_⟩
      · dsimp only
        rw [sumAmounts, hfilter]
      · intro hnil
        dsimp only at hnil ⊢
        rw [sumAmounts, hfilter, hnil]
        simp

/-- Concrete instances for the category balance. -/
def c2cat : Category :=
  { id := 1, name := "Food", budget_amount := 500, user_id := 1, month := "2025-03" }

def c2txn : Transaction :=
  { id := 1, amount := 7, description := "groceries", date := 3,
    category_id := some 1, budget_period_id := none, user_id := 1,
    source := "manual", notes := none, external_id := none }

def c2balance : CategoryWithBalance :=
  { id := 1, name := "Food", budget_amount := 500, month := "2025-03",
    user_id := 1, spent := 7, remaining := 493 }

/-- Witness for claim C2 at the concrete instance. -/
theorem category_balance_spec_witness :
    (read_category [c2cat] [c2txn] 1 1 = .ok c2balance) ∧
    (∀ t ∈ [c2txn], t.user_id = 1) ∧
    (c2balance.spent = (([c2txn].filter
        (fun t => decide (t.category_id = some c2balance.id))).map
        (fun t => t.amount)).sum ∧
     c2balance.remaining = c2balance.budget_amount - c2balance.spent ∧
     ([c2txn].filter (fun t => decide (t.category_id = some c2balance.id)) = [] →
       c2balance.spent = 0)) := by
  have hok : read_category [c2cat] [c2txn] 1 1 = .ok c2balance := by
    norm_num [read_category, sumAmounts, c2cat, c2txn, c2balance]
  have howner : ∀ t ∈ [c2txn], t.user_id = 1 := by decide
  exact ⟨hok, howner, category_balance_spec [c2cat] [c2txn] 1 1 c2balance hok howner⟩

/- Claim C3 -/

/-- Concrete instances for the spec scenario of claim C3: budget_amount
500.00 and exactly the transactions with amounts -120.00 and -45.50 in the
category. -/
def c3cat : Category :=
  { id := 1, name := "Shopping", budget_amount := 500, user_id := 1, month := "2025-03" }

def c3txns : List Transaction :=
  [{ id := 1, amount := -120, description := "a", date := 1,
     category_id := some 1, budget_period_id := none, user_id := 1,
     source := "manual", notes := none, external_id := none },
   { id := 2, amount := -91/2, description := "b", date := 2,
     category_id := some 1, budget_period_id := none, user_id := 1,
     source := "manual", notes := none, external_id := none }]

/-- Counterexample to claim C3: on the scenario's input the code returns
spent = -165.50 and remaining = 665.50, not the claimed spent = 165.50 and
remaining = 334.50 — read_category sums the signed amounts as stored, it does
not negate or take absolute values. -/
theorem category_balance_scenario_counterexample :
    (read_category [c3cat] c3txns 1 1).map (fun r => (r.spent, r.remaining)) =
      .ok (-331/2, 1331/2) ∧
    (read_category [c3cat] c3txns 1 1).map (fun r => (r.spent, r.remaining)) ≠
      .ok (331/2, 669/2) := by
  constructor
  · norm_num [read_category, sumAmounts, c3cat, c3txns, Except.map]
  · norm_num [read_category, sumAmounts, c3cat, c3txns, Except.map]

/-- Claim C3 as amended: for a category with budget_amount 500.00 and exactly
the transactions with amounts -120.00 and -45.50 assigned to it, the category
balance returns spent = -165.50 and remaining = 665.50 (the signed sum of the
stored amounts and the budget minus that sum). -/
theorem category_balance_scenario_amended :
    (read_category [c3cat] c3txns 1 1).map (fun r => (r.spent, r.remaining)) =
      .ok (-331/2, 1331/2) := by
  norm_num [read_category, sumAmounts, c3cat, c3txns, Except.map]

/- Claim C4 -/

/-- Claim C4: whenever the provider's textual answer parses to an integer id
that is not the id of any candidate category, categorize_transaction returns
no suggestion rather than that id or an error; consequently every non-None
result is the id of a member of the candidate list. -/
theorem categorize_membership :
    (∀ (available : List CategoryChoice) (response : String) (cid : Nat),
      parseCategoryId response = some cid →
      (∀ c ∈ available, c.id ≠ cid) →
      categorize_transaction available response = none) ∧
    (∀ (available : List CategoryChoice) (response : String) (cid : Nat),
      categorize_transaction available response = some cid →
      ∃ c ∈ available, c.id = cid) := by
  constructor
  · intro available response cid hparse hnotmem
    unfold categorize_transaction
    rw [hparse]
    have hany : available.any (fun c => decide (c.id = cid)) = false := by
      simp only [List.any_eq_false, decide_eq_true_eq]
      exact hnotmem
    simp [hany]
  · intro available response cid hsome
    unfold categorize_transaction at hsome
    cases hparse : parseCategoryId response with
    | none => rw [hparse] at hsome; cases hsome
    | some pid =>
        rw [hparse] at hsome
        dsimp only at hsome
        by_cases hany : available.any (fun c => decide (c.id = pid)) = true
        · rw [if_pos hany] at hsome
          simp only [Option.some.injEq] at hsome
          subst hsome
          simpa using hany
        · rw [if_neg hany] at hsome
          cases hsome

/-- Witness for claim C4: the answer text 3 parses to id 3, which is not in
the candidate list [Food (id 1)], so the adapter returns no suggestion; and a
run that does return an id returns a member of the list. -/
theorem categorize_membership_witness :
    (parseCategoryId ("3") = some 3 ∧
     (∀ c ∈ [({ id := 1, name := "Food" } : CategoryChoice)], c.id ≠ 3) ∧
     categorize_transaction [{ id := 1, name := "Food" }] "3" = none) ∧
    (categorize_transaction [{ id := 3, name := "Rent" }] "3" = some 3 ∧
     ∃ c ∈ [({ id := 3, name := "Rent" } : CategoryChoice)], c.id = 3) := by
  refine ⟨⟨by decide, by decide, ?_⟩, by decide, ?_⟩
  · exact categorize_membership.1 [{ id := 1, name := "Food" }] "3" 3 (by decide) (by decide)
  · exact categorize_membership.2 [{ id := 3, name := "Rent" }] "3" 3 (by decide)

/- Claim C5 -/

/-- Number of stored transactions carrying a given external id for a given
owner. -/
def countExternal (s : LedgerState) (e : String) (uid : Nat) : Nat :=
  (s.transactions.filter (fun t =>
    decide (t.external_id = some e ∧ t.user_id = uid))).length

/-- A successful find-or-create of the Uncategorized category means the
category already existed: the ledger is returned unchanged (the create
branch always fails with the TypeError). -/
theorem findOrCreateUncategorized_ok (s : LedgerState) (uid : Nat)
    (p : Category × LedgerState)
    (h : findOrCreateUncategorized s uid = .ok p) : p.2 = s := by
  unfold findOrCreateUncategorized at h
  cases hfind : s.categories.find? (fun c =>
      decide (c.name = "Uncategorized" ∧ c.user_id = uid)) with
  | none => rw [hfind] at h; cases h
  | some c =>
      rw [hfind] at h
      simp only [Except.ok.injEq] at h
      rw [← h]

/-- One reconciliation step keeps the per-owner external-id count at most
one: a record whose external id already exists for the owner is skipped, and
a new insertion can only happen when the count was zero. -/
theorem syncStep_count_le_one (uid uncatId : Nat) (st : LedgerState)
    (r : SyncRecord) (e : String)
    (h : countExternal st e uid ≤ 1) :
    countExternal (syncStep uid uncatId st r) e uid ≤ 1 := by
  unfold syncStep
  cases hany : st.transactions.any (fun t =>
      decide (t.external_id = some r.external_id ∧ t.user_id = uid)) with
  | true => simpa using h
  | false =>
      simp only [Bool.false_eq_true, if_false]
      unfold countExternal at h ⊢
      simp only [List.filter_append, List.length_append]
      by_cases he : r.external_id = e
      · have hzero : st.transactions.filter (fun t =>
            decide (t.external_id = some e ∧ t.user_id = uid)) = [] := by
          rw [List.filter_eq_nil_iff]
          intro t ht
          have hnot := (List.any_eq_false.mp hany) t ht
          subst he
          simpa using hnot
        rw [hzero]
        simp [he]
      · simpa [he] using h

/-- The reconciliation loop keeps the per-owner external-id count at most
one. -/
theorem syncLoop_count_le_one (uid uncatId : Nat) (e : String)
    (records : List SyncRecord) :
    ∀ st : LedgerState, countExternal st e uid ≤ 1 →
      countExternal (syncLoop uid uncatId records st) e uid ≤ 1 := by
  induction records with
  | nil => intro st h; simpa [syncLoop] using h
  | cons r rest ih =>
      intro st h
      rw [syncLoop]
      exact ih (syncStep uid uncatId st r) (syncStep_count_le_one uid uncatId st r e h)

/-- A successful sync keeps the per-owner external-id count at most one. -/
theorem sync_count_le_one (s : LedgerState) (acct : BankAccount)
    (uid now : Nat) (fr : Except String (List SyncRecord))
    (s' : LedgerState) (a' : BankAccount) (e : String)
    (hok : sync_bank_account s acct uid now fr = .ok (s', a'))
    (h : countExternal s e uid ≤ 1) :
    countExternal s' e uid ≤ 1 := by
  unfold sync_bank_account at hok
  by_cases hp : lowerStr acct.provider ≠ "gocardless"
  · rw [if_pos hp] at hok; cases hok
  · rw [if_neg hp] at hok
    by_cases hs : acct.secret_id.getD ("") = ("")
    · rw [if_pos hs] at hok; cases hok
    · rw [if_neg hs] at hok
      cases fr with
      | error msg => cases hok
      | ok records =>
          cases hfc : findOrCreateUncategorized s uid with
          | error msg => rw [hfc] at hok; cases hok
          | ok p =>
              rw [hfc] at hok
              simp only [Except.ok.injEq, Prod.mk.injEq] at hok
              obtain ⟨hstate, -⟩ := hok
              subst hstate
              exact syncLoop_count_le_one uid _ e records _
                (by rw [findOrCreateUncategorized_ok s uid p hfc]; exact h)

/-- Claim C5: running bank sync twice over fetch results containing a record
creates at most one transaction carrying that record's external id for the
owner — an existing transaction with the same external_id for the same owner
makes the record be skipped, so the count never exceeds one. -/
theorem sync_dedup (s : LedgerState) (acct : BankAccount)
    (uid now1 now2 : Nat) (fr1 fr2 : Except String (List SyncRecord))
    (s1 s2 : LedgerState) (a1 a2 : BankAccount) (e : String)
    (h1 : sync_bank_account s acct uid now1 fr1 = .ok (s1, a1))
    (h2 : sync_bank_account s1 a1 uid now2 fr2 = .ok (s2, a2))
    (h0 : countExternal s e uid ≤ 1) :
    countExternal s2 e uid ≤ 1 :=
  sync_count_le_one s1 a1 uid now2 fr2 s2 a2 e h2
    (sync_count_le_one s acct uid now1 fr1 s1 a1 e h1 h0)

/-- Concrete instances for bank sync: a ledger holding the owner's
Uncategorized category and no transactions (the only kind of state from
which the category lookup succeeds, since the create branch raises), a
GoCardless account with credentials, and one fetched record with external id
pay_1. -/
def c5uncat : Category :=
  { id := 1, name := "Uncategorized", budget_amount := 0, user_id := 1, month := "" }

def c5s0 : LedgerState :=
  { categories := [c5uncat], transactions := [],
    nextTransactionId := 1, nextCategoryId := 2 }

def c5acct : BankAccount :=
  { id := 1, name := "Main", account_type := "checking", provider := "gocardless",
    user_id := 1, secret_id := some "sid", secret_key := some "sk",
    last_synced := none }

def c5rec : SyncRecord :=
  { amount := 10, description := "Payment pay_1", date := 5,
    external_id := "pay_1", status := "confirmed", currency := "EUR" }

def c5s1 : LedgerState :=
  { categories := [c5uncat],
    transactions := [{ id := 1, amount := 10, description := "Payment pay_1",
                       date := 5, category_id := some 1, budget_period_id := none,
                       user_id := 1, source := "gocardless",
                       notes := some "Status: confirmed, Currency: EUR",
                       external_id := some "pay_1" }],
    nextTransactionId := 2, nextCategoryId := 2 }

def c5a1 : BankAccount := { c5acct with last_synced := some 100 }

def c5a2 : BankAccount := { c5acct with last_synced := some 200 }

/-- Witness for claim C5: syncing the same record twice from an empty ledger
creates the pay_1 transaction once and leaves the count at one. -/
theorem sync_dedup_witness :
    (sync_bank_account c5s0 c5acct 1 100 (.ok [c5rec]) = .ok (c5s1, c5a1)) ∧
    (sync_bank_account c5s1 c5a1 1 200 (.ok [c5rec]) = .ok (c5s1, c5a2)) ∧
    countExternal c5s0 ("pay_1") 1 ≤ 1 ∧
    countExternal c5s1 ("pay_1") 1 ≤ 1 := by
  have h1 : sync_bank_account c5s0 c5acct 1 100 (.ok [c5rec]) = .ok (c5s1, c5a1) := by
    rfl
  have h2 : sync_bank_account c5s1 c5a1 1 200 (.ok [c5rec]) = .ok (c5s1, c5a2) := by
    rfl
  exact ⟨h1, h2, by decide,
    sync_dedup c5s0 c5acct 1 100 200 (.ok [c5rec]) (.ok [c5rec]) c5s1 c5s1
      c5a1 c5a2 ("pay_1") h1 h2 (by decide)⟩

/- Claim C6 -/

/-- Claim C6: a successful sync sets the account's last_synced watermark to
the call time, even when the fetch returned zero records; a failed client
initialization or fetch surfaces a 500 error to the caller, and no updated
account or ledger is produced, so the stored watermark stays as it was. -/
theorem sync_watermark :
    (∀ (s : LedgerState) (acct : BankAccount) (uid now : Nat)
       (records : List SyncRecord) (s' : LedgerState) (a' : BankAccount),
      sync_bank_account s acct uid now (.ok records) = .ok (s', a') →
      a'.last_synced = some now) ∧
    (∀ (s : LedgerState) (acct : BankAccount) (uid now : Nat) (msg : String),
      lowerStr acct.provider = "gocardless" →
      acct.secret_id.getD ("") ≠ ("") →
      sync_bank_account s acct uid now (.error msg) =
        .error (.serverError ("Failed to sync with GoCardless: " ++ msg))) := by
  constructor
  · intro s acct uid now records s' a' hok
    unfold sync_bank_account at hok
    by_cases hp : lowerStr acct.provider ≠ "gocardless"
    · rw [if_pos hp] at hok; cases hok
    · rw [if_neg hp] at hok
      by_cases hs : acct.secret_id.getD ("") = ("")
      · rw [if_pos hs] at hok; cases hok
      · rw [if_neg hs] at hok
        cases hfc : findOrCreateUncategorized s uid with
        | error msg => rw [hfc] at hok; cases hok
        | ok p =>
            rw [hfc] at hok
            simp only [Except.ok.injEq, Prod.mk.injEq] at hok
            obtain ⟨-, hacct⟩ := hok
            subst hacct
            rfl
  · intro s acct uid now msg hp hs
    unfold sync_bank_account
    rw [if_neg (by simpa using hp), if_neg hs]

/-- Witness for claim C6: a sync fetching zero records leaves the ledger as
it was but still advances the watermark to the call time, and a failed fetch
surfaces a 500 error. -/
theorem sync_watermark_witness :
    (sync_bank_account c5s0 c5acct 1 100 (.ok []) = .ok (c5s0, c5a1)) ∧
    c5a1.last_synced = some 100 ∧
    sync_bank_account c5s0 c5acct 1 100 (.error ("boom")) =
      .error (.serverError ("Failed to sync with GoCardless: boom")) := by
  have h : sync_bank_account c5s0 c5acct 1 100 (.ok []) = .ok (c5s0, c5a1) := by
    rfl
  exact ⟨h, sync_watermark.1 c5s0 c5acct 1 100 [] c5s0 c5a1 h,
    sync_watermark.2 c5s0 c5acct 1 100 ("boom") (by decide) (by decide)⟩

/- Claim C7 -/

/-- A state with zero categories and zero transactions. -/
def c7empty : LedgerState :=
  { categories := [], transactions := [], nextTransactionId := 1, nextCategoryId := 1 }

/-- Counterexample to claim C7: in a state where the user has zero categories
but also zero uncategorized transactions, bulk categorization does not fail
with a 400 ConfigurationError — the empty-selection check runs first and
returns an empty report with success. -/
theorem bulk_zero_categories_counterexample :
    (c7empty.categories.filter (fun c => decide (c.user_id = 1))) = [] ∧
    bulk_categorize_transactions c7empty 1 (fun _ _ => "None") = .ok ([], c7empty) := by
  exact ⟨rfl, rfl⟩

/-- Claim C7 as amended: when the user has zero categories and at least one
uncategorized transaction, bulk categorization fails with the 400 error, and
no updated ledger is produced, so no transaction is modified. -/
theorem bulk_zero_categories_amended (s : LedgerState) (uid : Nat)
    (ai : String → ℚ → String)
    (hne : uncategorizedFor s uid ≠ [])
    (hcats : s.categories.filter (fun c => decide (c.user_id = uid)) = []) :
    bulk_categorize_transactions s uid ai =
      .error (.badRequest ("No categories found. Please create categories first.")) := by
  unfold bulk_categorize_transactions
  rw [if_neg (by simpa [List.isEmpty_iff] using hne),
      if_pos (by simp [hcats])]

/-- An uncategorized transaction for the C7 witness state. -/
def c7txn : Transaction :=
  { id := 1, amount := 5, description := "coffee", date := 0,
    category_id := none, budget_period_id := none, user_id := 1,
    source := "manual", notes := none, external_id := none }

/-- A state with zero categories and one uncategorized transaction. -/
def c7state : LedgerState :=
  { categories := [], transactions := [c7txn],
    nextTransactionId := 2, nextCategoryId := 1 }

/-- Witness for the amended claim C7. -/
theorem bulk_zero_categories_amended_witness :
    uncategorizedFor c7state 1 ≠ [] ∧
    c7state.categories.filter (fun c => decide (c.user_id = 1)) = [] ∧
    bulk_categorize_transactions c7state 1 (fun _ _ => "None") =
      .error (.badRequest ("No categories found. Please create categories first.")) := by
  exact ⟨by decide, rfl,
    bulk_zero_categories_amended c7state 1 (fun _ _ => "None") (by decide) rfl⟩

/- Claim C8 -/

/-- Concrete instances for bulk-categorization idempotence: one category and
one uncategorized transaction. -/
def c8cat : Category :=
  { id := 1, name := "Food", budget_amount := 100, user_id := 1, month := "" }

def c8txn : Transaction :=
  { id := 1, amount := 5, description := "coffee", date := 0,
    category_id := none, budget_period_id := none, user_id := 1,
    source := "manual", notes := none, external_id := none }

def c8state : LedgerState :=
  { categories := [c8cat], transactions := [c8txn],
    nextTransactionId := 2, nextCategoryId := 2 }

def c8report : List BulkResult :=
  [{ transaction_id := 1, description := "coffee", amount := 5,
     category_id := none, category_name := none }]

/-- Counterexample to claim C8: when the adapter answers None for the only
uncategorized transaction, the first bulk run returns a non-empty report and
leaves the ledger unchanged, so the second run — bulk categorization on the
very same state — returns the same non-empty report, not the empty list. -/
theorem bulk_idempotence_counterexample :
    bulk_categorize_transactions c8state 1 (fun _ _ => "None") =
      .ok (c8report, c8state) ∧
    bulk_categorize_transactions c8state 1 (fun _ _ => "None") ≠
      .ok ([], c8state) := by
  have h : bulk_categorize_transactions c8state 1 (fun _ _ => "None") =
      .ok (c8report, c8state) := by rfl
  refine ⟨h, ?_⟩
  intro hcontra
  rw [h] at hcontra
  simp [c8report] at hcontra

/-- If every selected transaction receives an accepted non-zero suggestion,
the bulk loop leaves every transaction of the owner categorized: each update
sets a category id from the candidate list and never sets NULL or 0. -/
theorem bulkFold_categorizes (ai : String → ℚ → String)
    (available : List CategoryChoice) (uid : Nat) :
    ∀ (l : List Transaction) (acc : List BulkResult × LedgerState),
      (∀ t ∈ l, ∃ c, categorize_transaction available (ai t.description t.amount)
        = some c ∧ c ≠ 0) →
      (∀ t' ∈ acc.2.transactions, t'.user_id = uid →
        (t'.category_id ≠ none ∧ t'.category_id ≠ some 0) ∨
          t'.id ∈ l.map (fun t => t.id)) →
      ∀ t' ∈ (l.foldl (bulkStep ai available) acc).2.transactions,
        t'.user_id = uid → t'.category_id ≠ none ∧ t'.category_id ≠ some 0 := by
  intro l
  induction l with
  | nil =>
      intro acc hall hgood t' ht' hu
      rcases hgood t' ht' hu with h | h
      · exact h
      · simp at h
  | cons t rest ih =>
      intro acc hall hgood t' ht' hu
      rw [List.foldl_cons] at ht'
      refine ih (bulkStep ai available acc t)
        (fun x hx => hall x (List.mem_cons_of_mem t hx)) ?_ t' ht' hu
      obtain ⟨c, hc, hc0⟩ := hall t (List.mem_cons_self t rest)
      intro t'' ht'' hu''
      have hstate : (bulkStep ai available acc t).2.transactions =
          acc.2.transactions.map (fun x =>
            if x.id = t.id then { x with category_id := some c } else x) := by
        simp only [bulkStep, categorizeAndPersist, hc]
      rw [hstate] at ht''
      obtain ⟨t0, ht0, hmap⟩ := List.mem_map.mp ht''
      by_cases hid : t0.id = t.id
      · rw [if_pos hid] at hmap
        left
        rw [← hmap]
        exact ⟨Option.some_ne_none c ∘ Eq.symm ∘ Eq.symm,
          fun habs => hc0 (by simpa using habs)⟩
      · rw [if_neg hid] at hmap
        subst hmap
        rcases hgood t0 ht0 hu'' with h | h
        · exact Or.inl h
        · rcases List.mem_map.mp h with ⟨x, hx, hxid⟩
          rcases List.mem_cons.mp hx with rfl | hx'
          · exact absurd hxid.symm hid
          · exact Or.inr (List.mem_map.mpr ⟨x, hx', hxid⟩)

/-- Claim C8 as amended: when every transaction selected by the first bulk
run receives an accepted suggestion with a non-zero category id, the second
run — with no transactions added in between — returns the empty report: the
selection filter only includes transactions whose category reference is NULL
or 0, and none remain.  (As stated the claim fails when the adapter returns
no suggestion for some transaction: that transaction stays selected.) -/
theorem bulk_second_run_empty (s : LedgerState) (uid : Nat)
    (ai : String → ℚ → String) (rs : List BulkResult) (s' : LedgerState)
    (hall : ∀ t ∈ uncategorizedFor s uid, ∃ c,
      categorize_transaction (availableFor s uid) (ai t.description t.amount)
        = some c ∧ c ≠ 0)
    (hrun : bulk_categorize_transactions s uid ai = .ok (rs, s')) :
    bulk_categorize_transactions s' uid ai = .ok ([], s') := by
  unfold bulk_categorize_transactions at hrun
  by_cases hemp : (uncategorizedFor s uid).isEmpty = true
  · rw [if_pos hemp] at hrun
    simp only [Except.ok.injEq, Prod.mk.injEq] at hrun
    obtain ⟨-, hs⟩ := hrun
    subst hs
    unfold bulk_categorize_transactions
    rw [if_pos hemp]
  · rw [if_neg hemp] at hrun
    by_cases hcats : (s.categories.filter (fun c => decide (c.user_id = uid))).isEmpty = true
    · rw [if_pos hcats] at hrun; cases hrun
    · rw [if_neg hcats] at hrun
      simp only [Except.ok.injEq] at hrun
      have hs : (List.foldl (bulkStep ai (availableFor s uid))
          (([] : List BulkResult), s) (uncategorizedFor s uid)).2 = s' :=
        congrArg Prod.snd hrun
      have hinit : ∀ t' ∈ ((([] : List BulkResult), s)).2.transactions,
          t'.user_id = uid →
          (t'.category_id ≠ none ∧ t'.category_id ≠ some 0) ∨
            t'.id ∈ (uncategorizedFor s uid).map (fun t => t.id) := by
        intro t' ht' hu
        by_cases h0 : t'.category_id = none ∨ t'.category_id = some 0
        · refine Or.inr (List.mem_map.mpr ⟨t', ?_, rfl⟩)
          unfold uncategorizedFor
          rw [List.mem_filter]
          exact ⟨ht', by simp [hu, h0]⟩
        · push_neg at h0
          exact Or.inl h0
      have hcat := bulkFold_categorizes ai (availableFor s uid) uid
        (uncategorizedFor s uid) (([] : List BulkResult), s) hall hinit
      rw [hs] at hcat
      have hnil : uncategorizedFor s' uid = [] := by
        unfold uncategorizedFor
        rw [List.filter_eq_nil_iff]
        intro t' ht'
        simp only [decide_eq_true_eq, not_and, not_or]
        intro hu
        exact (hcat t' ht' hu).imp id id
      unfold bulk_categorize_transactions
      rw [if_pos (by rw [hnil]; rfl)]

/-- The ledger after the witness first run: the transaction got category 1. -/
def c8final : LedgerState :=
  { categories := [c8cat],
    transactions := [{ c8txn with category_id := some 1 }],
    nextTransactionId := 2, nextCategoryId := 2 }

def c8wreport : List BulkResult :=
  [{ transaction_id := 1, description := "coffee", amount := 5,
     category_id := some 1, category_name := some "Food" }]

/-- Witness for the amended claim C8: with the adapter answering 1 for every
transaction, the first run categorizes the only selected transaction and the
second run returns the empty report. -/
theorem bulk_second_run_empty_witness :
    bulk_categorize_transactions c8state 1 (fun _ _ => "1") =
      .ok (c8wreport, c8final) ∧
    bulk_categorize_transactions c8final 1 (fun _ _ => "1") =
      .ok ([], c8final) := by
  have hrun : bulk_categorize_transactions c8state 1 (fun _ _ => "1") =
      .ok (c8wreport, c8final) := by rfl
  refine ⟨hrun, bulk_second_run_empty c8state 1 (fun _ _ => "1") c8wreport c8final ?_ hrun⟩
  intro t ht
  exact ⟨1, rfl, one_ne_zero⟩

/- Claim C9 -/

/-- Owner 1's transaction carrying external id pay_1. -/
def c9txnA : Transaction :=
  { id := 1, amount := 10, description := "Payment pay_1", date := 5,
    category_id := some 1, budget_period_id := none, user_id := 1,
    source := "gocardless", notes := none, external_id := some "pay_1" }

/-- Owner 2's transaction carrying the same external id pay_1 (external ids
are only unique per owner, so this state is legal). -/
def c9txnB : Transaction :=
  { id := 2, amount := 20, description := "Payment pay_1", date := 6,
    category_id := some 7, budget_period_id := none, user_id := 2,
    source := "gocardless", notes := none, external_id := some "pay_1" }

def c9both : LedgerState :=
  { categories := [], transactions := [c9txnA, c9txnB],
    nextTransactionId := 3, nextCategoryId := 1 }

def c9only : LedgerState :=
  { categories := [], transactions := [c9txnB],
    nextTransactionId := 3, nextCategoryId := 1 }

/-- Counterexample to claim C9: the webhook endpoint looks transactions up by
external_id with no owner filter, so for the same webhook input it reads and
mutates owner 1's transaction in one state and owner 2's in another — the
touched entity's owner is decided by row order, not by any caller, and the
same payment id can select either owner's row. -/
theorem webhook_not_owner_scoped_counterexample :
    webhookFindTransaction c9both ("pay_1") = some c9txnA ∧
    webhookFindTransaction c9only ("pay_1") = some c9txnB ∧
    c9txnA.user_id ≠ c9txnB.user_id ∧
    (webhookApplyEvent c9only ("pay_1") ("note")).transactions =
      [{ c9txnB with notes := some "note" }] := by
  exact ⟨rfl, rfl, by decide, rfl⟩

/-- Claim C9 as amended: every authenticated entity operation is owner-scoped
— reading a transaction, a category balance or a budget period summary
returns only an entity whose owner is the caller — while the unauthenticated
webhook endpoint matches transactions by external_id alone, without owner
scoping, and may read or mutate any owner's transaction. -/
theorem reads_owner_scoped (s : LedgerState) (cats : List Category)
    (txns : List Transaction) (periods : List BudgetPeriod)
    (allocs : List EnvelopeAllocation) (uid tid cid pid : Nat)
    (t : Transaction) (r : CategoryWithBalance) (ps : PeriodSummary) :
    (read_transaction s uid tid = .ok t → t.user_id = uid) ∧
    (read_category cats txns uid cid = .ok r → r.user_id = uid) ∧
    (get_budget_period_with_allocations periods allocs cats txns uid pid = .ok ps →
      ps.user_id = uid) := by
  refine ⟨?_, ?_, ?_⟩
  · intro hok
    unfold read_transaction at hok
    cases hfind : s.transactions.find? (fun x => decide (x.id = tid ∧ x.user_id = uid)) with
    | none => rw [hfind] at hok; cases hok
    | some x =>
        rw [hfind] at hok
        simp only [Except.ok.injEq] at hok
        subst hok
        have := List.find?_some hfind
        simp only [decide_eq_true_eq] at this
        exact this.2
  · intro hok
    unfold read_category at hok
    cases hfind : cats.find? (fun c => decide (c.id = cid ∧ c.user_id = uid)) with
    | none => rw [hfind] at hok; cases hok
    | some c =>
        rw [hfind] at hok
        simp only [Except.ok.injEq] at hok
        subst hok
        have := List.find?_some hfind
        simp only [decide_eq_true_eq] at this
        exact this.2
  · intro hok
    unfold get_budget_period_with_allocations at hok
    cases hfind : periods.find? (fun p => decide (p.id = pid ∧ p.user_id = uid)) with
    | none => rw [hfind] at hok; cases hok
    | some p =>
        rw [hfind] at hok
        simp only [Except.ok.injEq] at hok
        subst hok
        have := List.find?_some hfind
        simp only [decide_eq_true_eq] at this
        exact this.2

/-- Witness for the amended claim C9 at concrete inputs. -/
theorem reads_owner_scoped_witness :
    (read_transaction c9both 1 1 = .ok c9txnA ∧ c9txnA.user_id = 1) ∧
    (read_category [c2cat] [c2txn] 1 1 = .ok c2balance ∧ c2balance.user_id = 1) ∧
    (get_budget_period_with_allocations [c1period] [c1alloc] [c1cat] [c1txn] 1 1
        = .ok c1summary ∧ c1summary.user_id = 1) := by
  have h1 : read_transaction c9both 1 1 = .ok c9txnA := by rfl
  have h2 : read_category [c2cat] [c2txn] 1 1 = .ok c2balance := by
    norm_num [read_category, sumAmounts, c2cat, c2txn, c2balance]
  have h3 : get_budget_period_with_allocations [c1period] [c1alloc] [c1cat] [c1txn] 1 1
      = .ok c1summary := by
    norm_num [get_budget_period_with_allocations, allocationLoop, periodSpent,
      sumAmounts, c1period, c1alloc, c1cat, c1txn, c1summary]
  exact ⟨⟨h1, (reads_owner_scoped c9both [c2cat] [c2txn] [c1period] [c1alloc]
      1 1 1 1 c9txnA c2balance c1summary).1 h1⟩,
    ⟨h2, (reads_owner_scoped c9both [c2cat] [c2txn] [c1period] [c1alloc]
      1 1 1 1 c9txnA c2balance c1summary).2.1 h2⟩,
    ⟨h3, (reads_owner_scoped c9both [c1cat] [c1txn] [c1period] [c1alloc]
      1 1 1 1 c9txnA c2balance c1summary).2.2 h3⟩⟩

/- Claim C10 -/

/-- Claim C10: verify_webhook_signature returns True for every request body,
signature header and secret, so the webhook endpoint's signature gate never
answers 401, whatever signature is supplied. -/
theorem verify_webhook_signature_always_true :
    (∀ (body : List Nat) (sig secret : String),
      verify_webhook_signature body sig secret = true) ∧
    (∀ (body : List Nat) (sig : String),
      webhookSignatureGate body sig = .ok ()) := by
  exact ⟨fun _ _ _ => rfl, fun _ _ => rfl⟩

end CoinConductor
